import Mathlib

/-!
Verification of the Archipelago fork's DataStorage set-with-operations engine
(specified in spec.md, pinned by src/test/multi_server/TestDataStorage.py) and
of `ChoiceMap.get_selected_list` (src/worlds/satisfactory/Options.py).

The DataStorage implementation itself is not among the source files; only its
test suite is.  The engine is therefore modelled from the spec (sections 3, 4
and 7), with the test suite as the authority wherever it pins behaviour the
spec words differently (notably the `cmd = "SetReply"` field that
`assert_result` checks on every reply).
-/

/-- Modelled from the spec: the dynamically-shaped StoredValue / operand type
of section 3 — "a tagged variant over {number, text, boolean, mapping,
sequence, absent}".  Absence is represented by the enclosing `Option` /
missing store entry; `null` models Python's `None`, which appears as an
operand in the tests. -/
inductive Value where
  | null : Value
  | num (n : Int) : Value
  | text (s : String) : Value
  | boolean (b : Bool) : Value
  | mapping (entries : List (String × Value)) : Value
  | seq (elems : List Value) : Value

/-- Modelled from the spec: the error taxonomy of section 7 —
MissingValueError, ConfigurationError, and the OperationError subtypes
TypeMismatch and KeyNotFound (the Python tests observe the latter as
`KeyError`). -/
inductive DSError where
  | missingValue : DSError
  | configuration : DSError
  | typeMismatch : DSError
  | keyNotFound : DSError
deriving DecidableEq

/-- One pipeline step, mirroring the wire shape
`{"operation": tag, "value": operand}` used by the tests. -/
structure Operation where
  operation : String
  value : Value

/-- Modelled from the spec: the five on_error policies of section 3;
`raise` is spelled `raiseErr`. A Command carries `Option OnError`, with
absence meaning `raiseErr`. -/
inductive OnError where
  | raiseErr : OnError
  | setDefault : OnError
  | undo : OnError
  | abort : OnError
  | ignore : OnError
deriving DecidableEq

/-- Modelled from the spec: the Command of section 3 —
`{key, default?, on_error? (raise if absent), operations}`. -/
structure Command where
  key : String
  default : Option Value
  on_error : Option OnError
  operations : List Operation

/-- A store is the Python dict backing DataStorage: an association list with
unique string keys, looked up with `List.lookup`. -/
abbrev Store := List (String × Value)

/-- Python dict assignment `store[key] = v`: replace the entry in place when
the key exists, append otherwise. -/
def storeSet (k : String) (v : Value) : Store → Store
  | [] => [(k, v)]
  | (k', v') :: rest => if k' = k then (k, v) :: rest else (k', v') :: storeSet k v rest

/-- Python `dict.pop` removal part: drop the entry with the given key. -/
def eraseKey (k : String) : List (String × Value) → List (String × Value)
  | [] => []
  | (k', v') :: rest => if k' = k then rest else (k', v') :: eraseKey k rest

/-- Modelled from the spec: the `add` operation of section 4.2 — numeric
addition, TypeMismatch if either side is non-numeric. -/
def addOp : Value → Value → Except DSError Value
  | .num a, .num b => .ok (.num (a + b))
  | _, _ => .error .typeMismatch

/-- Modelled from the spec: the `pop` operation of section 4.2 — treats the
current value as a mapping and removes the entry keyed by the operand;
KeyNotFound if the operand is absent from the mapping (which includes any
non-text operand, since store mappings are string-keyed), TypeMismatch if the
current value is not a mapping. -/
def popOp : Value → Value → Except DSError Value
  | .mapping m, .text k =>
    if (m.lookup k).isSome then .ok (.mapping (eraseKey k m)) else .error .keyNotFound
  | .mapping _, _ => .error .keyNotFound
  | _, _ => .error .typeMismatch

/-- Modelled from the spec: the `default` operation of section 4.2 — the
operand is ignored; a pure no-op when the key pre-existed, otherwise it
reassigns the current value to the command-level default and signals the
executor to re-snapshot (the Bool in the result).  When the key did not
pre-exist the Value Initializer has already guaranteed a command default, so
the `none` branch is unreachable through `DataStorage.set`. -/
def defaultOp (current : Value) (had_key_before : Bool) (dflt : Option Value) :
    Except DSError (Value × Bool) :=
  if had_key_before then .ok (current, false)
  else
    match dflt with
    | some d => .ok (d, true)
    | none => .error .missingValue

/-- Modelled from the spec: the Operation Registry of section 4.2, dispatching
a tag to its transform.  Only `add`, `pop` and `default` are evidenced; an
unknown tag fails as an operation error.  The Bool in the result is the
re-snapshot signal, true only when `default` actually reassigned. -/
def applyTransform (tag : String) (current operand : Value) (had_key_before : Bool)
    (dflt : Option Value) : Except DSError (Value × Bool) :=
  if tag = "add" then
    match addOp current operand with
    | .ok v => .ok (v, false)
    | .error e => .error e
  else if tag = "pop" then
    match popOp current operand with
    | .ok v => .ok (v, false)
    | .error e => .error e
  else if tag = "default" then
    defaultOp current had_key_before dflt
  else
    .error .typeMismatch

/-- Modelled from the spec: the Pipeline Executor state machine of section
4.3.  Runs the operations in order against (current, snapshot); on a step
failure it branches on the policy: raise propagates, set_default commits the
command default (ConfigurationError without one), undo commits the snapshot,
abort commits the value from just before the failing step, ignore skips the
step and continues.  Returns (final value, snapshot). -/
def runOps (policy : OnError) (had_key_before : Bool) (dflt : Option Value) :
    Value → Value → List Operation → Except DSError (Value × Value)
  | current, snapshot, [] => .ok (current, snapshot)
  | current, snapshot, op :: rest =>
    match applyTransform op.operation current op.value had_key_before dflt with
    | .ok (c, true) => runOps policy had_key_before dflt c c rest
    | .ok (c, false) => runOps policy had_key_before dflt c snapshot rest
    | .error e =>
      match policy with
      | .raiseErr => .error e
      | .setDefault =>
        match dflt with
        | some d => .ok (d, snapshot)
        | none => .error .configuration
      | .undo => .ok (snapshot, snapshot)
      | .abort => .ok (current, snapshot)
      | .ignore => runOps policy had_key_before dflt current snapshot rest

/-- Modelled from the spec: the Value Initializer of section 4.1 — the stored
value when the key is present, else the command default, else
MissingValueError; also reports whether the key pre-existed. -/
def initValue (store : Store) (c : Command) : Except DSError (Value × Bool) :=
  match store.lookup c.key with
  | some v => .ok (v, true)
  | none =>
    match c.default with
    | some d => .ok (d, false)
    | none => .error .missingValue

/-- The reply of a successful set.  The spec's section 3 lists only
{key, value, original_value}, but the test suite's `assert_result` asserts
`result["cmd"] == "SetReply"` on every reply, so the engine itself attaches
the kind tag; the tests are the authority here. -/
structure Reply where
  cmd : String
  key : String
  value : Value
  original_value : Value

/-- The reply as the Python dict `set` actually returns, in insertion order. -/
def Reply.toDict (r : Reply) : List (String × Value) :=
  [("cmd", .text r.cmd), ("key", .text r.key), ("value", r.value),
   ("original_value", r.original_value)]

/-- Modelled from the spec: `DataStorage.set` — Value Initializer, then
Pipeline Executor under the command's policy (raise when absent), then Reply
Builder committing the final value to the store (sections 4.1-4.4).  Errors
escape without touching the store; the returned store is the committed one. -/
def DataStorage.set (store : Store) (c : Command) : Except DSError (Store × Reply) :=
  match initValue store c with
  | .error e => .error e
  | .ok (init, had_key_before) =>
    match runOps (c.on_error.getD .raiseErr) had_key_before c.default init init c.operations with
    | .error e => .error e
    | .ok (final, snap) =>
      .ok (storeSet c.key final store,
        { cmd := "SetReply", key := c.key, value := final, original_value := snap })

/-- The value produced by the longest successful prefix of the pipeline before
its first failing step: apply operations in order, stopping at the first
failure (spec section 8, abort policy). -/
def applyUntilFailure (had_key_before : Bool) (dflt : Option Value) :
    Value → List Operation → Value
  | current, [] => current
  | current, op :: rest =>
    match applyTransform op.operation current op.value had_key_before dflt with
    | .ok (c, _) => applyUntilFailure had_key_before dflt c rest
    | .error _ => current

/-- The value produced by applying all operations except the failing ones, in
their original order (spec section 8, ignore policy). -/
def applyIgnoring (had_key_before : Bool) (dflt : Option Value) :
    Value → List Operation → Value
  | current, [] => current
  | current, op :: rest =>
    match applyTransform op.operation current op.value had_key_before dflt with
    | .ok (c, _) => applyIgnoring had_key_before dflt c rest
    | .error _ => applyIgnoring had_key_before dflt current rest

/-- Whether running the pipeline from the given state encounters a failing
step: exactly when the raise-policy run errors. -/
def pipelineFails (had_key_before : Bool) (dflt : Option Value)
    (current snapshot : Value) (ops : List Operation) : Prop :=
  ∃ e, runOps .raiseErr had_key_before dflt current snapshot ops = .error e

/-- `ChoiceMap` from src/worlds/satisfactory/Options.py: an ordered choices
mapping (a Python class-level dict) and the selected numeric option value
inherited from `Choice`. -/
structure ChoiceMap where
  choices : List (String × List String)
  value : Int

/-- The loop body of `ChoiceMap.get_selected_list`: iterate over the choices
keys with their enumeration index; on `index == self.value` return that
choice's list (dict keys are unique, so the keyed lookup the Python code does
is the entry's own list).  Falling off the loop returns Python's implicit
`None`. -/
def selectLoop (value : Int) : Nat → List (String × List String) → Option (List String)
  | _, [] => none
  | i, (_, l) :: rest => if (i : Int) = value then some l else selectLoop value (i + 1) rest

/-- `ChoiceMap.get_selected_list` (Options.py lines 38-41). -/
def ChoiceMap.get_selected_list (o : ChoiceMap) : Option (List String) :=
  selectLoop o.value 0 o.choices

/-! Concrete inputs from src/test/multi_server/TestDataStorage.py, used to
validate the model against the test suite and as witness inputs. -/

/-- Store of `test_adding_number`. -/
def basicAddStore : Store := [("BasicAdd", .num 10)]

/-- Command of `test_adding_number`. -/
def basicAddCmd : Command := ⟨"BasicAdd", none, none, [⟨"add", .num 12⟩]⟩

/-- Command of `test_adding_number_with_default` (store is empty). -/
def addDefaultCmd : Command := ⟨"AddWithDefault", some (.num 35), none, [⟨"add", .num 6⟩]⟩

/-- Command of `test_default_operation` (store is empty). -/
def defaultOpCmd : Command := ⟨"Default", some (.text "Hello"), none, [⟨"default", .null⟩]⟩

/-- Store of `test_default_should_not_override_existing_value`. -/
def defaultExistingStore : Store := [("DefaultWithExistingValue", .text "ExistingValue")]

/-- Command of `test_default_should_not_override_existing_value`. -/
def defaultExistingCmd : Command :=
  ⟨"DefaultWithExistingValue", some (.text "NewValue"), none, [⟨"default", .text "Ignored"⟩]⟩

/-- Store of `test_should_raise_error_on_failure_if_no_error_handling_is_specified`. -/
def raiseStore : Store := [("RaiseOnPopWithNonExistingKey", .mapping [])]

/-- Command of `test_should_raise_error_on_failure_if_no_error_handling_is_specified`. -/
def raiseCmd : Command :=
  ⟨"RaiseOnPopWithNonExistingKey", none, none, [⟨"pop", .text "non_existing_key"⟩]⟩

/-- Store of `test_should_raise_error_on_failure_if_handling_is_specified_as_raise`. -/
def raiseExplicitStore : Store :=
  [("RaiseOnPopWithNonExistingKeyAndOnErrorRaise", .mapping [])]

/-- Command of `test_should_raise_error_on_failure_if_handling_is_specified_as_raise`. -/
def raiseExplicitCmd : Command :=
  ⟨"RaiseOnPopWithNonExistingKeyAndOnErrorRaise", none, some .raiseErr,
    [⟨"pop", .text "non_existing_key"⟩]⟩

/-- Store of `test_should_set_key_to_default_if_on_error_is_set_default`. -/
def setDefaultStore : Store :=
  [("DoNotRaiseOnPopWithNonExistingKeyAndOnErrorSetDefault", .mapping [])]

/-- Command of `test_should_set_key_to_default_if_on_error_is_set_default`. -/
def setDefaultCmd : Command :=
  ⟨"DoNotRaiseOnPopWithNonExistingKeyAndOnErrorSetDefault", some (.text "Something"),
    some .setDefault, [⟨"pop", .text "non_existing_key"⟩]⟩

/-- Store of `test_should_undo_any_operations_on_key_if_on_error_is_undo`. -/
def undoStore : Store := [("UndoOperationsWithOnErrorUndo", .num 10)]

/-- Command of `test_should_undo_any_operations_on_key_if_on_error_is_undo`. -/
def undoCmd : Command :=
  ⟨"UndoOperationsWithOnErrorUndo", none, some .undo,
    [⟨"add", .num 9⟩, ⟨"pop", .text "not_a_dict"⟩]⟩

/-- Store of `test_should_abort_any_further_operations_on_key_if_on_error_abort`. -/
def abortStore : Store := [("AbortOperationsWithOnErrorAbort", .num 10)]

/-- Command of `test_should_abort_any_further_operations_on_key_if_on_error_abort`. -/
def abortCmd : Command :=
  ⟨"AbortOperationsWithOnErrorAbort", none, some .abort,
    [⟨"add", .num 9⟩, ⟨"pop", .text "not_a_dict"⟩, ⟨"add", .num 10⟩]⟩

/-- Store of `test_should_ignore_any_errors_on_operations_on_if_on_error_ignore`. -/
def ignoreStore : Store := [("IgnoreErrorsOnOperationsWithOnErrorIgnore", .num 10)]

/-- Command of `test_should_ignore_any_errors_on_operations_on_if_on_error_ignore`. -/
def ignoreCmd : Command :=
  ⟨"IgnoreErrorsOnOperationsWithOnErrorIgnore", none, some .ignore,
    [⟨"add", .num 9⟩, ⟨"pop", .text "not_a_dict"⟩, ⟨"add", .num 10⟩]⟩

/-- A two-entry ChoiceMap, shaped like the repository's `TrapSelectionPreset`
but small enough for witnesses. -/
def smallChoiceMap (v : Int) : ChoiceMap :=
  ⟨[("Normal", ["Hog Basic"]), ("Gentle", ["Doggo Pulse Nobelisk"])], v⟩

/-! ## Helper lemmas about the executor -/

/-- A transform only signals a re-snapshot when it is the `default` operation
actually reassigning: the key did not pre-exist and the new current value is
the command default. -/
theorem applyTransform_resnap {tag : String} {cur opnd : Value} {had : Bool}
    {dflt : Option Value} {c : Value}
    (h : applyTransform tag cur opnd had dflt = .ok (c, true)) :
    had = false ∧ dflt = some c := by
  unfold applyTransform at h
  split at h
  · cases haa : addOp cur opnd <;> rw [haa] at h <;> simp at h
  · split at h
    · cases hpp : popOp cur opnd <;> rw [hpp] at h <;> simp at h
    · split at h
      · unfold defaultOp at h
        split at h
        · simp at h
        · split at h
          · simp at h
            exact ⟨by simp_all, by simp_all⟩
          · simp at h
      · simp at h

/-- Snapshot invariance: whenever the executor starts from a snapshot that
equals the command default in the key-absent case (which `DataStorage.set`
always guarantees), the snapshot it reports on success is the one it started
from — the `default` operation's re-snapshot writes back the same value. -/
theorem runOps_ok_snapshot (policy : OnError) (had : Bool) (dflt : Option Value) :
    ∀ (ops : List Operation) (cur snap final snap' : Value),
    (had = false → dflt = some snap) →
    runOps policy had dflt cur snap ops = .ok (final, snap') → snap' = snap := by
  intro ops
  induction ops with
  | nil =>
    intro cur snap final snap' _ hr
    simp only [runOps] at hr
    simp at hr
    exact hr.2.symm
  | cons op rest ih =>
    intro cur snap final snap' h hr
    simp only [runOps] at hr
    cases hA : applyTransform op.operation cur op.value had dflt with
    | ok p =>
      obtain ⟨c, resnap⟩ := p
      rw [hA] at hr
      cases resnap with
      | false => exact ih c snap final snap' h hr
      | true =>
        obtain ⟨hhad, hdf⟩ := applyTransform_resnap hA
        have hcs : c = snap := by
          have := h hhad
          rw [hdf] at this
          exact (Option.some_inj.mp this)
        subst hcs
        exact ih c c final snap' h hr
    | error e =>
      rw [hA] at hr
      cases policy with
      | raiseErr => simp at hr
      | setDefault =>
        cases hd : dflt with
        | none => rw [hd] at hr; simp at hr
        | some d => rw [hd] at hr; simp at hr; exact hr.2.symm
      | undo => simp at hr; exact hr.2.symm
      | abort => simp at hr; exact hr.2.symm
      | ignore => exact ih cur snap final snap' h hr

/-- Under the undo policy, a pipeline whose raise-policy run fails commits
exactly the starting snapshot. -/
theorem runOps_undo_eq (had : Bool) (dflt : Option Value) :
    ∀ (ops : List Operation) (cur snap : Value) (e : DSError),
    (had = false → dflt = some snap) →
    runOps .raiseErr had dflt cur snap ops = .error e →
    runOps .undo had dflt cur snap ops = .ok (snap, snap) := by
  intro ops
  induction ops with
  | nil =>
    intro cur snap e _ hf
    simp [runOps] at hf
  | cons op rest ih =>
    intro cur snap e h hf
    simp only [runOps] at hf ⊢
    cases hA : applyTransform op.operation cur op.value had dflt with
    | ok p =>
      obtain ⟨c, resnap⟩ := p
      rw [hA] at hf
      cases resnap with
      | false => exact ih c snap e h hf
      | true =>
        obtain ⟨hhad, hdf⟩ := applyTransform_resnap hA
        have hcs : c = snap := by
          have := h hhad
          rw [hdf] at this
          exact Option.some_inj.mp this
        subst hcs
        exact ih c c e h hf
    | error e' => rfl

/-- Under the abort policy the executor always succeeds and commits the value
of the longest successful run of operations before the first failure. -/
theorem runOps_abort_eq (had : Bool) (dflt : Option Value) :
    ∀ (ops : List Operation) (cur snap : Value),
    (had = false → dflt = some snap) →
    runOps .abort had dflt cur snap ops =
      .ok (applyUntilFailure had dflt cur ops, snap) := by
  intro ops
  induction ops with
  | nil => intro cur snap _; simp [runOps, applyUntilFailure]
  | cons op rest ih =>
    intro cur snap h
    simp only [runOps, applyUntilFailure]
    cases hA : applyTransform op.operation cur op.value had dflt with
    | ok p =>
      obtain ⟨c, resnap⟩ := p
      cases resnap with
      | false => exact ih c snap h
      | true =>
        obtain ⟨hhad, hdf⟩ := applyTransform_resnap hA
        have hcs : c = snap := by
          have := h hhad
          rw [hdf] at this
          exact Option.some_inj.mp this
        subst hcs
        exact ih c c h
    | error e' => rfl

/-- Under the ignore policy the executor always succeeds and commits the value
obtained by skipping every failing step. -/
theorem runOps_ignore_eq (had : Bool) (dflt : Option Value) :
    ∀ (ops : List Operation) (cur snap : Value),
    (had = false → dflt = some snap) →
    runOps .ignore had dflt cur snap ops =
      .ok (applyIgnoring had dflt cur ops, snap) := by
  intro ops
  induction ops with
  | nil => intro cur snap _; simp [runOps, applyIgnoring]
  | cons op rest ih =>
    intro cur snap h
    simp only [runOps, applyIgnoring]
    cases hA : applyTransform op.operation cur op.value had dflt with
    | ok p =>
      obtain ⟨c, resnap⟩ := p
      cases resnap with
      | false => exact ih c snap h
      | true =>
        obtain ⟨hhad, hdf⟩ := applyTransform_resnap hA
        have hcs : c = snap := by
          have := h hhad
          rw [hdf] at this
          exact Option.some_inj.mp this
        subst hcs
        exact ih c c h
    | error e' => exact ih cur snap h

/-- Under the set_default policy with a supplied default, a pipeline whose
raise-policy run fails commits the default, keeping the snapshot. -/
theorem runOps_setDefault_eq (had : Bool) (d : Value) :
    ∀ (ops : List Operation) (cur snap : Value) (e : DSError),
    (had = false → some d = some snap) →
    runOps .raiseErr had (some d) cur snap ops = .error e →
    runOps .setDefault had (some d) cur snap ops = .ok (d, snap) := by
  intro ops
  induction ops with
  | nil => intro cur snap e _ hf; simp [runOps] at hf
  | cons op rest ih =>
    intro cur snap e h hf
    simp only [runOps] at hf ⊢
    cases hA : applyTransform op.operation cur op.value had (some d) with
    | ok p =>
      obtain ⟨c, resnap⟩ := p
      rw [hA] at hf
      cases resnap with
      | false => exact ih c snap e h hf
      | true =>
        obtain ⟨hhad, hdf⟩ := applyTransform_resnap hA
        have hcs : c = snap := by
          have := h hhad
          rw [hdf] at this
          exact Option.some_inj.mp this
        subst hcs
        exact ih c c e h hf
    | error e' => rfl

/-- When the Value Initializer reports the key as absent, the initial value it
produced is the command default. -/
theorem initValue_inv {store : Store} {c : Command} {init : Value} {had : Bool}
    (h : initValue store c = .ok (init, had)) :
    had = false → c.default = some init := by
  intro hh
  unfold initValue at h
  cases hl : store.lookup c.key with
  | some v => rw [hl] at h; simp at h; simp [h.2] at hh
  | none =>
    rw [hl] at h
    cases hd : c.default with
    | some d => rw [hd] at h; simp at h; rw [h.1]
    | none => rw [hd] at h; simp at h

/-- Looking up a key right after committing it yields the committed value. -/
theorem lookup_storeSet (k : String) (v : Value) :
    ∀ s : Store, (storeSet k v s).lookup k = some v := by
  intro s
  induction s with
  | nil => simp [storeSet]
  | cons p rest ih =>
    obtain ⟨k', v'⟩ := p
    by_cases h : k' = k
    · simp [storeSet, h]
    · simp only [storeSet, if_neg h, List.lookup]
      have : (k == k') = false := by simp [Ne.symm h]
      rw [this]
      exact ih

/-- The `default` transform is a pure no-op when the key pre-existed. -/
theorem applyTransform_default_had (v w : Value) (dflt : Option Value) :
    applyTransform "default" v w true dflt = .ok (v, false) := rfl

/-- The `default` transform reassigns to the command default, with the
re-snapshot signal, when the key did not pre-exist. -/
theorem applyTransform_default_fresh (v w d : Value) :
    applyTransform "default" v w false (some d) = .ok (d, true) := rfl

/-- Any number of `default` operations on a pre-existing value leaves both
current value and snapshot unchanged, under every policy. -/
theorem runOps_default_replicate (policy : OnError) (dflt : Option Value)
    (v w : Value) : ∀ n : Nat,
    runOps policy true dflt v v (List.replicate n ⟨"default", w⟩) = .ok (v, v) := by
  intro n
  induction n with
  | zero => simp [List.replicate, runOps]
  | succ m ih =>
    simp only [List.replicate, runOps]
    rw [applyTransform_default_had]
    exact ih

/-- Inversion of a successful `DataStorage.set`: it decomposes into a
successful initialization, a successful executor run, and the Reply Builder's
commit. -/
theorem set_ok_inv {store : Store} {c : Command} {store' : Store} {r : Reply}
    (h : DataStorage.set store c = .ok (store', r)) :
    ∃ init had f s, initValue store c = .ok (init, had) ∧
      runOps (c.on_error.getD .raiseErr) had c.default init init c.operations = .ok (f, s) ∧
      store' = storeSet c.key f store ∧
      r = { cmd := "SetReply", key := c.key, value := f, original_value := s } := by
  unfold DataStorage.set at h
  split at h
  · exact absurd h (by simp)
  · rename_i init had heq
    split at h
    · exact absurd h (by simp)
    · rename_i f s hrun
      have h2 := h
      simp only [Except.ok.injEq, Prod.mk.injEq] at h2
      exact ⟨init, had, f, s, heq, hrun, h2.1.symm, h2.2.symm⟩

/-! ## Model validation against the test suite -/

/-- `test_adding_number`: store {BasicAdd: 10}, ops [add 12] commits 22 and
reports original_value 10. -/
theorem test_adding_number :
    DataStorage.set basicAddStore basicAddCmd =
      .ok ([("BasicAdd", .num 22)], ⟨"SetReply", "BasicAdd", .num 22, .num 10⟩) := rfl

/-- `test_adding_number_with_default`: empty store, default 35, ops [add 6]. -/
theorem test_adding_number_with_default :
    DataStorage.set [] addDefaultCmd =
      .ok ([("AddWithDefault", .num 41)],
        ⟨"SetReply", "AddWithDefault", .num 41, .num 35⟩) := rfl

/-- `test_default_operation`: empty store, default "Hello", ops
[default null]; both value and original_value are "Hello". -/
theorem test_default_operation :
    DataStorage.set [] defaultOpCmd =
      .ok ([("Default", .text "Hello")],
        ⟨"SetReply", "Default", .text "Hello", .text "Hello"⟩) := rfl

/-- `test_default_should_not_override_existing_value`. -/
theorem test_default_should_not_override_existing_value :
    DataStorage.set defaultExistingStore defaultExistingCmd =
      .ok ([("DefaultWithExistingValue", .text "ExistingValue")],
        ⟨"SetReply", "DefaultWithExistingValue", .text "ExistingValue",
          .text "ExistingValue"⟩) := rfl

/-- `test_should_raise_error_on_failure_if_no_error_handling_is_specified`:
pop of an absent mapping key raises KeyNotFound. -/
theorem test_should_raise_error_if_unspecified :
    DataStorage.set raiseStore raiseCmd = .error .keyNotFound := rfl

/-- `test_should_raise_error_on_failure_if_handling_is_specified_as_raise`. -/
theorem test_should_raise_error_if_raise :
    DataStorage.set raiseExplicitStore raiseExplicitCmd = .error .keyNotFound := rfl

/-- `test_should_set_key_to_default_if_on_error_is_set_default`. -/
theorem test_should_set_key_to_default :
    DataStorage.set setDefaultStore setDefaultCmd =
      .ok ([("DoNotRaiseOnPopWithNonExistingKeyAndOnErrorSetDefault", .text "Something")],
        ⟨"SetReply", "DoNotRaiseOnPopWithNonExistingKeyAndOnErrorSetDefault",
          .text "Something", .mapping []⟩) := rfl

/-- `test_should_undo_any_operations_on_key_if_on_error_is_undo`. -/
theorem test_should_undo_any_operations :
    DataStorage.set undoStore undoCmd =
      .ok ([("UndoOperationsWithOnErrorUndo", .num 10)],
        ⟨"SetReply", "UndoOperationsWithOnErrorUndo", .num 10, .num 10⟩) := rfl

/-- `test_should_abort_any_further_operations_on_key_if_on_error_abort`. -/
theorem test_should_abort_any_further_operations :
    DataStorage.set abortStore abortCmd =
      .ok ([("AbortOperationsWithOnErrorAbort", .num 19)],
        ⟨"SetReply", "AbortOperationsWithOnErrorAbort", .num 19, .num 10⟩) := rfl

/-- `test_should_ignore_any_errors_on_operations_on_if_on_error_ignore`. -/
theorem test_should_ignore_any_errors :
    DataStorage.set ignoreStore ignoreCmd =
      .ok ([("IgnoreErrorsOnOperationsWithOnErrorIgnore", .num 29)],
        ⟨"SetReply", "IgnoreErrorsOnOperationsWithOnErrorIgnore", .num 29, .num 10⟩) := rfl

/-- `get_selected_list` picks the choices entry whose enumeration index equals
the option value. -/
theorem get_selected_list_picks_indexed_entry :
    (smallChoiceMap 1).get_selected_list = some ["Doggo Pulse Nobelisk"] := by rfl

/-! ## Claims -/

/-- Claim C1: for every command with on_error=undo whose pipeline contains a
failing step, `set` returns a Reply whose value — and the committed store
entry — equals the pre-pipeline snapshot, no matter how many earlier steps
succeeded, and original_value equals that same snapshot. -/
theorem undo_reverts_to_snapshot (store : Store) (c : Command) (init : Value)
    (had : Bool) (e : DSError)
    (hpol : c.on_error = some .undo)
    (hinit : initValue store c = .ok (init, had))
    (hfail : runOps .raiseErr had c.default init init c.operations = .error e) :
    DataStorage.set store c =
      .ok (storeSet c.key init store,
        { cmd := "SetReply", key := c.key, value := init, original_value := init }) ∧
    (storeSet c.key init store).lookup c.key = some init := by
  refine ⟨?_, lookup_storeSet c.key init store⟩
  unfold DataStorage.set
  rw [hinit, hpol]
  simp only [Option.getD_some]
  rw [runOps_undo_eq had c.default c.operations init init e (initValue_inv hinit) hfail]

/-- Witness for C1 at the inputs of
`test_should_undo_any_operations_on_key_if_on_error_is_undo`. -/
theorem undo_reverts_to_snapshot_witness :
    DataStorage.set undoStore undoCmd =
      .ok ([("UndoOperationsWithOnErrorUndo", Value.num 10)],
        ⟨"SetReply", "UndoOperationsWithOnErrorUndo", .num 10, .num 10⟩) ∧
    ([("UndoOperationsWithOnErrorUndo", Value.num 10)] : Store).lookup
      "UndoOperationsWithOnErrorUndo" = some (.num 10) :=
  undo_reverts_to_snapshot undoStore undoCmd (.num 10) true .typeMismatch rfl rfl rfl

/-- Claim C2: for every command with on_error=abort whose pipeline contains a
failing step, `set` returns a Reply whose value equals the result of applying
only the longest successful run of operations before the first failure; the
failing step and everything after it have no effect. -/
theorem abort_stops_at_first_failure (store : Store) (c : Command) (init : Value)
    (had : Bool) (e : DSError)
    (hpol : c.on_error = some .abort)
    (hinit : initValue store c = .ok (init, had))
    (_hfail : runOps .raiseErr had c.default init init c.operations = .error e) :
    DataStorage.set store c =
      .ok (storeSet c.key (applyUntilFailure had c.default init c.operations) store,
        { cmd := "SetReply", key := c.key,
          value := applyUntilFailure had c.default init c.operations,
          original_value := init }) := by
  unfold DataStorage.set
  rw [hinit, hpol]
  simp only [Option.getD_some]
  rw [runOps_abort_eq had c.default c.operations init init (initValue_inv hinit)]

/-- Witness for C2 at the inputs of
`test_should_abort_any_further_operations_on_key_if_on_error_abort`. -/
theorem abort_stops_at_first_failure_witness :
    DataStorage.set abortStore abortCmd =
      .ok ([("AbortOperationsWithOnErrorAbort", Value.num 19)],
        ⟨"SetReply", "AbortOperationsWithOnErrorAbort", .num 19, .num 10⟩) :=
  abort_stops_at_first_failure abortStore abortCmd (.num 10) true .typeMismatch rfl rfl rfl

/-- Claim C3: for every command with on_error=ignore whose starting value
resolves, `set` returns a Reply whose value equals the result of applying all
operations except the failing ones, in their original order. -/
theorem ignore_skips_failing_steps (store : Store) (c : Command) (init : Value)
    (had : Bool)
    (hpol : c.on_error = some .ignore)
    (hinit : initValue store c = .ok (init, had)) :
    DataStorage.set store c =
      .ok (storeSet c.key (applyIgnoring had c.default init c.operations) store,
        { cmd := "SetReply", key := c.key,
          value := applyIgnoring had c.default init c.operations,
          original_value := init }) := by
  unfold DataStorage.set
  rw [hinit, hpol]
  simp only [Option.getD_some]
  rw [runOps_ignore_eq had c.default c.operations init init (initValue_inv hinit)]

/-- Witness for C3 at the inputs of
`test_should_ignore_any_errors_on_operations_on_if_on_error_ignore`. -/
theorem ignore_skips_failing_steps_witness :
    DataStorage.set ignoreStore ignoreCmd =
      .ok ([("IgnoreErrorsOnOperationsWithOnErrorIgnore", Value.num 29)],
        ⟨"SetReply", "IgnoreErrorsOnOperationsWithOnErrorIgnore", .num 29, .num 10⟩) :=
  ignore_skips_failing_steps ignoreStore ignoreCmd (.num 10) true rfl rfl

/-- Claim C4: for every command with on_error=set_default and a supplied
default whose pipeline contains a failing step, `set` returns a Reply whose
value equals the command-level default while original_value stays the true
pre-pipeline snapshot, and the store entry is committed to the default. -/
theorem setDefault_commits_default (store : Store) (c : Command) (init : Value)
    (had : Bool) (d : Value) (e : DSError)
    (hpol : c.on_error = some .setDefault)
    (hdef : c.default = some d)
    (hinit : initValue store c = .ok (init, had))
    (hfail : runOps .raiseErr had c.default init init c.operations = .error e) :
    DataStorage.set store c =
      .ok (storeSet c.key d store,
        { cmd := "SetReply", key := c.key, value := d, original_value := init }) ∧
    (storeSet c.key d store).lookup c.key = some d := by
  refine ⟨?_, lookup_storeSet c.key d store⟩
  unfold DataStorage.set
  rw [hinit, hpol]
  simp only [Option.getD_some]
  rw [hdef] at hfail ⊢
  rw [runOps_setDefault_eq had d c.operations init init e
    (fun hh => by rw [← hdef, initValue_inv hinit hh]) hfail]

/-- Witness for C4 at the inputs of
`test_should_set_key_to_default_if_on_error_is_set_default`. -/
theorem setDefault_commits_default_witness :
    DataStorage.set setDefaultStore setDefaultCmd =
      .ok ([("DoNotRaiseOnPopWithNonExistingKeyAndOnErrorSetDefault", Value.text "Something")],
        ⟨"SetReply", "DoNotRaiseOnPopWithNonExistingKeyAndOnErrorSetDefault",
          .text "Something", .mapping []⟩) ∧
    ([("DoNotRaiseOnPopWithNonExistingKeyAndOnErrorSetDefault", Value.text "Something")] :
        Store).lookup "DoNotRaiseOnPopWithNonExistingKeyAndOnErrorSetDefault" =
      some (.text "Something") :=
  setDefault_commits_default setDefaultStore setDefaultCmd (.mapping []) true
    (.text "Something") .keyNotFound rfl rfl rfl rfl

/-- Claim C5: for every command where on_error is absent or `raise` and some
operation fails, `set` propagates that operation's error unchanged and
produces no Reply; being pure, it commits nothing, so the store entry is left
exactly as it was. -/
theorem raise_propagates_error (store : Store) (c : Command) (init : Value)
    (had : Bool) (e : DSError)
    (hpol : c.on_error = none ∨ c.on_error = some .raiseErr)
    (hinit : initValue store c = .ok (init, had))
    (hfail : runOps .raiseErr had c.default init init c.operations = .error e) :
    DataStorage.set store c = .error e := by
  unfold DataStorage.set
  rw [hinit]
  cases hpol with
  | inl h => rw [h]; simp only [Option.getD_none]; rw [hfail]
  | inr h => rw [h]; simp only [Option.getD_some]; rw [hfail]

/-- Witness for C5 at the inputs of
`test_should_raise_error_on_failure_if_no_error_handling_is_specified`. -/
theorem raise_propagates_error_witness :
    DataStorage.set raiseStore raiseCmd = .error .keyNotFound :=
  raise_propagates_error raiseStore raiseCmd (.mapping []) true .keyNotFound
    (Or.inl rfl) rfl rfl

/-- Claim C8: for every command whose key is absent from the store and that
supplies no default, `set` fails with MissingValueError, whatever the
on_error policy, since on_error only governs failures of individual
operations. -/
theorem missing_value_unconditional (store : Store) (c : Command)
    (hkey : store.lookup c.key = none) (hdef : c.default = none) :
    DataStorage.set store c = .error .missingValue := by
  unfold DataStorage.set initValue
  rw [hkey, hdef]

/-- Witness for C8 on an empty store, under an error-absorbing policy. -/
theorem missing_value_unconditional_witness :
    DataStorage.set [] ⟨"MissingKey", none, some .ignore, [⟨"add", .num 1⟩]⟩ =
      .error .missingValue :=
  missing_value_unconditional [] ⟨"MissingKey", none, some .ignore, [⟨"add", .num 1⟩]⟩ rfl rfl

/-- Claim C6: the snapshot reported as Reply.original_value is the value
captured before the first operation runs — the `default` operation's
re-snapshot writes back that same value, since it reassigns to the command
default, which for an absent key is exactly the initial value — and in
particular the Reply for an absent key running a `default` operation has
original_value equal to value equal to the command-level default. -/
theorem snapshot_once_default_exception :
    (∀ (store : Store) (c : Command) (init : Value) (had : Bool)
       (store' : Store) (r : Reply),
      initValue store c = .ok (init, had) →
      DataStorage.set store c = .ok (store', r) → r.original_value = init)
    ∧ (∀ (store : Store) (c : Command) (d w : Value),
      store.lookup c.key = none → c.default = some d →
      c.operations = [⟨"default", w⟩] →
      DataStorage.set store c =
        .ok (storeSet c.key d store,
          { cmd := "SetReply", key := c.key, value := d, original_value := d })) := by
  constructor
  · intro store c init had store' r hinit hset
    obtain ⟨init2, had2, f, s, heq, hrun, _, hr⟩ := set_ok_inv hset
    rw [hinit] at heq
    injection heq with heq'
    injection heq' with hi hh
    subst hi
    subst hh
    rw [hr]
    exact runOps_ok_snapshot (c.on_error.getD .raiseErr) had c.default c.operations
      init init f s (initValue_inv hinit) hrun
  · intro store c d w hkey hdef hops
    have hinit : initValue store c = .ok (d, false) := by
      unfold initValue; rw [hkey, hdef]
    unfold DataStorage.set
    rw [hinit, hops, hdef]
    rfl

/-- Witness for C6: the first part at the inputs of `test_adding_number`, the
second at the inputs of `test_default_operation`. -/
theorem snapshot_once_default_exception_witness :
    ((⟨"SetReply", "BasicAdd", .num 22, .num 10⟩ : Reply).original_value = Value.num 10) ∧
    DataStorage.set [] defaultOpCmd =
      .ok ([("Default", Value.text "Hello")],
        ⟨"SetReply", "Default", .text "Hello", .text "Hello"⟩) :=
  ⟨snapshot_once_default_exception.1 basicAddStore basicAddCmd (.num 10) true
      [("BasicAdd", .num 22)] ⟨"SetReply", "BasicAdd", .num 22, .num 10⟩ rfl rfl,
    snapshot_once_default_exception.2 [] defaultOpCmd (.text "Hello") .null rfl rfl rfl⟩

/-- Claim C7: for every key that pre-existed in the store, the `default`
operation is a pure no-op and idempotent: any number of applications never
changes the current value, never overwrites it with the command-level
default, and leaves original_value equal to the pre-existing value. -/
theorem default_noop_when_key_exists (store : Store) (c : Command) (v w : Value)
    (n : Nat)
    (hkey : store.lookup c.key = some v)
    (hops : c.operations = List.replicate n ⟨"default", w⟩) :
    DataStorage.set store c =
      .ok (storeSet c.key v store,
        { cmd := "SetReply", key := c.key, value := v, original_value := v }) ∧
    (storeSet c.key v store).lookup c.key = some v := by
  refine ⟨?_, lookup_storeSet c.key v store⟩
  have hinit : initValue store c = .ok (v, true) := by
    unfold initValue; rw [hkey]
  unfold DataStorage.set
  rw [hinit, hops]
  simp only [runOps_default_replicate]

/-- Witness for C7 at the inputs of
`test_default_should_not_override_existing_value` (one application). -/
theorem default_noop_when_key_exists_witness :
    DataStorage.set defaultExistingStore defaultExistingCmd =
      .ok ([("DefaultWithExistingValue", Value.text "ExistingValue")],
        ⟨"SetReply", "DefaultWithExistingValue", .text "ExistingValue",
          .text "ExistingValue"⟩) ∧
    ([("DefaultWithExistingValue", Value.text "ExistingValue")] : Store).lookup
      "DefaultWithExistingValue" = some (.text "ExistingValue") :=
  default_noop_when_key_exists defaultExistingStore defaultExistingCmd
    (.text "ExistingValue") (.text "Ignored") 1 rfl rfl

/-- Counterexample to C9 as stated: at the inputs of `test_adding_number`,
the dict `set` returns has keys {cmd, key, value, original_value} — it does
carry the SetReply kind tag, so it does not consist of exactly
{key, value, original_value}. -/
theorem reply_carries_kind_tag_counterexample :
    (DataStorage.set basicAddStore basicAddCmd).map
        (fun p => p.2.toDict.map Prod.fst) =
      .ok ["cmd", "key", "value", "original_value"] ∧
    ["cmd", "key", "value", "original_value"] ≠ ["key", "value", "original_value"] := by
  constructor
  · rfl
  · decide

/-- Claim C9 as amended: every Reply produced by `set` consists of exactly the
fields {cmd, key, value, original_value}, with cmd = "SetReply" — the engine
itself attaches the response-kind tag, as the test suite's `assert_result`
checks — and key echoing the command's key. -/
theorem reply_fields_include_cmd_tag (store : Store) (c : Command)
    (store' : Store) (r : Reply)
    (h : DataStorage.set store c = .ok (store', r)) :
    r.toDict.map Prod.fst = ["cmd", "key", "value", "original_value"] ∧
    r.cmd = "SetReply" ∧ r.key = c.key := by
  obtain ⟨init, had, f, s, _, _, _, hr⟩ := set_ok_inv h
  rw [hr]
  exact ⟨rfl, rfl, rfl⟩

/-- Witness for the amended C9 at the inputs of `test_adding_number`. -/
theorem reply_fields_include_cmd_tag_witness :
    (⟨"SetReply", "BasicAdd", .num 22, .num 10⟩ : Reply).toDict.map Prod.fst =
      ["cmd", "key", "value", "original_value"] ∧
    (⟨"SetReply", "BasicAdd", .num 22, .num 10⟩ : Reply).cmd = "SetReply" ∧
    (⟨"SetReply", "BasicAdd", .num 22, .num 10⟩ : Reply).key = "BasicAdd" :=
  reply_fields_include_cmd_tag basicAddStore basicAddCmd [("BasicAdd", .num 22)]
    ⟨"SetReply", "BasicAdd", .num 22, .num 10⟩ rfl

/-- The loop of `get_selected_list` returns `none` when no remaining
enumeration index matches the value. -/
theorem selectLoop_none (value : Int) :
    ∀ (l : List (String × List String)) (i : Nat),
    (∀ j : Nat, j < l.length → (((i + j : Nat) : Int) ≠ value)) →
    selectLoop value i l = none := by
  intro l
  induction l with
  | nil => intro i _; rfl
  | cons p rest ih =>
    intro i h
    obtain ⟨k, lst⟩ := p
    simp only [selectLoop]
    have h0 : (i : Int) ≠ value := by simpa using h 0 (by simp)
    rw [if_neg h0]
    refine ih (i + 1) (fun j hj => ?_)
    have hna : i + 1 + j = i + (j + 1) := by omega
    rw [hna]
    exact h (j + 1) (by simp only [List.length_cons]; omega)

/-- Claim C10: for every ChoiceMap whose value does not equal the enumeration
index of any key of its choices mapping, `get_selected_list` returns no list
at all — Python's implicit None, here `none` — rather than raising or
falling back to a default choice. -/
theorem get_selected_list_none_of_no_index_match (o : ChoiceMap)
    (h : ∀ i : Nat, i < o.choices.length → (i : Int) ≠ o.value) :
    o.get_selected_list = none := by
  unfold ChoiceMap.get_selected_list
  refine selectLoop_none o.value o.choices 0 (fun j hj => ?_)
  simpa using h j hj

/-- Witness for C10: a two-choice map with value 9 selects nothing. -/
theorem get_selected_list_none_witness :
    (smallChoiceMap 9).get_selected_list = none :=
  get_selected_list_none_of_no_index_match (smallChoiceMap 9) (by decide)
